import Mathlib

/-!
Verification development for the slackbot repository: a shallow embedding of
`app/services/openai_service.py` and `app/services/slack_service.py`.

Strings are modelled as Lean `String` / `List Char`.  Python's `re.sub` with the
concrete patterns used by `OpenAIService.format_slack_message` is embedded as a
left-to-right scanner (`subScan`) parameterised by a matcher for each pattern;
each matcher returns the total length of the leftmost match at the head of the
input together with the replacement text, mirroring `re.sub` semantics
(non-overlapping leftmost matches, scanning resumes after the replaced span).
-/

set_option maxRecDepth 8000

deriving instance DecidableEq for Except

namespace Slackbot

/-- Python's regex class `\s` / `str.strip()` whitespace, over its ASCII range:
space, tab, newline, carriage return, vertical tab, form feed. -/
def isPySpace (c : Char) : Bool :=
  c == ' ' || c == '\t' || c == '\n' || c == '\r' || c == Char.ofNat 11 || c == Char.ofNat 12

/-- The character class `[A-Z0-9]` from the mention/channel patterns. -/
def isUpperDigit (c : Char) : Bool :=
  ('A' ≤ c && c ≤ 'Z') || ('0' ≤ c && c ≤ '9')

/-- The backquote character, marker of the `` `code` `` pattern. -/
def backquote : Char := Char.ofNat 96

/-- Fuel-driven worker for `subScan`; the fuel makes the recursion structural so
that concrete inputs evaluate in the kernel. -/
def subScanF (t : List Char → Option (Nat × List Char)) : Nat → List Char → List Char
  | 0, _ => []
  | _, [] => []
  | fuel + 1, c :: cs =>
    match t (c :: cs) with
    | some (n, rep) => rep ++ subScanF t fuel (cs.drop (n - 1))
    | none => c :: subScanF t fuel cs

/-- `re.sub` for a fixed pattern: `t l` returns `some (n, rep)` when the pattern
matches a span of length `n ≥ 1` at the head of `l`, with replacement `rep`.
The scanner emits `rep`, skips the span, and continues; on no match it keeps one
character and moves on. -/
def subScan (t : List Char → Option (Nat × List Char)) (l : List Char) : List Char :=
  subScanF t l.length l

/-- Matcher for `<@U[A-Z0-9]+(?:\|[^>]+)?>` (with `mark = '@'`, `lead = 'U'`) and
`<#C[A-Z0-9]+(?:\|[^>]+)?>` (with `mark = '#'`, `lead = 'C'`); the replacement is
empty (the token is removed). -/
def matchTag (mark lead : Char) : List Char → Option (Nat × List Char)
  | a :: b :: c :: rest =>
    if a = '<' ∧ b = mark ∧ c = lead then
      let run := rest.takeWhile isUpperDigit
      if run = [] then none
      else
        match rest.drop run.length with
        | '>' :: _ => some (run.length + 4, [])
        | '|' :: rest2 =>
          let lbl := rest2.takeWhile (· != '>')
          if lbl = [] then none
          else
            match rest2.drop lbl.length with
            | '>' :: _ => some (run.length + lbl.length + 5, [])
            | _ => none
        | _ => none
    else none
  | _ => none

/-- Length of a `https?://` scheme at the head of the input (the characters
following `<` in the link patterns). -/
def schemeLen : List Char → Option Nat
  | 'h' :: 't' :: 't' :: 'p' :: rest =>
    match rest with
    | 's' :: ':' :: '/' :: '/' :: _ => some 8
    | ':' :: '/' :: '/' :: _ => some 7
    | _ => none
  | _ => none

/-- Matcher for `<(https?://[^|>]+)\|([^>]+)>`, replacement `\2` (the label). -/
def matchLinkLabeled : List Char → Option (Nat × List Char)
  | c :: rest =>
    if c = '<' then
      match schemeLen rest with
      | none => none
      | some k =>
        let afterScheme := rest.drop k
        let url := afterScheme.takeWhile (fun c => c != '|' && c != '>')
        if url = [] then none
        else
          match afterScheme.drop url.length with
          | d :: rest2 =>
            if d = '|' then
              let lbl := rest2.takeWhile (· != '>')
              if lbl = [] then none
              else
                match rest2.drop lbl.length with
                | e :: _ => if e = '>' then some (k + url.length + lbl.length + 3, lbl) else none
                | [] => none
            else none
          | [] => none
    else none
  | [] => none

/-- Matcher for `<(https?://[^>]+)>`, replacement `\1` (the unwrapped url). -/
def matchLinkBare : List Char → Option (Nat × List Char)
  | c :: rest =>
    if c = '<' then
      match schemeLen rest with
      | none => none
      | some k =>
        let url := (rest.drop k).takeWhile (· != '>')
        if url = [] then none
        else
          match (rest.drop k).drop url.length with
          | e :: _ => if e = '>' then some (k + url.length + 2, rest.take k ++ url) else none
          | [] => none
    else none
  | [] => none

/-- Matcher for the emphasis patterns `\*([^*]+)\*`, `_([^_]+)_`,
`` `([^`]+)` ``, `~([^~]+)~`; replacement `\1` (the inner text). -/
def matchEmph (m : Char) : List Char → Option (Nat × List Char)
  | c :: rest =>
    if c = m then
      let inner := rest.takeWhile (· != m)
      if inner = [] then none
      else
        match rest.drop inner.length with
        | d :: _ => if d = m then some (inner.length + 2, inner) else none
        | [] => none
    else none
  | [] => none

/-- Matcher for `\s+`, replacement a single space. -/
def matchWs : List Char → Option (Nat × List Char)
  | c :: rest => if isPySpace c then some ((rest.takeWhile isPySpace).length + 1, [' ']) else none
  | [] => none

/-- Python `str.strip()`: drop leading and trailing whitespace. -/
def stripWS (l : List Char) : List Char :=
  ((l.dropWhile isPySpace).reverse.dropWhile isPySpace).reverse

/-- `str.strip()` at the `String` level. -/
def stripS (s : String) : String :=
  String.mk (stripWS s.data)

/-- The first eight `re.sub` steps of `OpenAIService.format_slack_message`,
lines 71-93, in source order: user mentions, channel mentions, labeled links,
bare links, bold, italic, code, strikethrough. -/
def preWs (l : List Char) : List Char :=
  subScan (matchEmph '~') (subScan (matchEmph backquote) (subScan (matchEmph '_')
    (subScan (matchEmph '*') (subScan matchLinkBare (subScan matchLinkLabeled
      (subScan (matchTag '#' 'C') (subScan (matchTag '@' 'U') l)))))))

/-- All nine `re.sub` steps of `OpenAIService.format_slack_message`, lines
71-96: the eight token rewrites, whitespace collapse, then `str.strip()`. -/
def formatCore (l : List Char) : List Char :=
  stripWS (subScan matchWs (preWs l))

/-- `OpenAIService.format_slack_message`, lines 58-98: empty/absent input gives
the empty string, otherwise the substitution chain runs. -/
def format_slack_message (message : String) : String :=
  if message = "" then "" else String.mk (formatCore message.data)

/-- Python exception values observable at the service boundaries: the two local
exception classes the services raise (`ValueError`, `RuntimeError`) and the
third-party exception classes their handlers dispatch on. -/
inductive PyExc
  | valueError (msg : String)
  | runtimeError (msg : String)
  | authenticationError (detail : String)
  | rateLimitError (detail : String)
  | apiError (detail : String)
  | slackApiError (errorCode : Option String)
  | otherException (detail : String)
  deriving DecidableEq, Repr

/-- Python `str(e)` as used in the services' f-strings. -/
def PyExc.str : PyExc → String
  | .valueError msg => msg
  | .runtimeError msg => msg
  | .authenticationError detail => detail
  | .rateLimitError detail => detail
  | .apiError detail => detail
  | .slackApiError errorCode => errorCode.getD ""
  | .otherException detail => detail

/-- True exactly for `ValueError`, the class of all caller-misuse raises. -/
def PyExc.isValueError : PyExc → Bool
  | .valueError _ => true
  | _ => false

/-- Outcome of one call to the upstream OpenAI
`client.chat.completions.create`: a response with its list of choice contents,
or one of the exception classes the services' handlers dispatch on. -/
inductive OpenAIOutcome
  | success (choices : List String)
  | authError (detail : String)
  | rateLimit (detail : String)
  | apiErr (detail : String)
  | exc (detail : String)
  deriving DecidableEq, Repr

/-- A `chat.completions.create` request as assembled by the service: model,
`(role, content)` turns, `max_tokens`, and `temperature` (absent on the
validation call; the float literal 0.7 is modelled as a rational). -/
structure CompletionReq where
  model : String
  messages : List (String × String)
  max_tokens : Nat
  temperature : Option ℚ
  deriving DecidableEq, Repr

/-- The minimal validation request of `_validate_api_key`, lines 42-46. -/
def validationReq (model : String) : CompletionReq :=
  { model := model, messages := [("user", "test")], max_tokens := 1, temperature := none }

/-- Body of the `try` in `_validate_api_key`: the upstream call either returns
(key accepted) or raises. -/
def validateBody (up : OpenAIOutcome) : Except PyExc Unit :=
  match up with
  | .success _ => .ok ()
  | .authError d => .error (.authenticationError d)
  | .rateLimit d => .error (.rateLimitError d)
  | .apiErr d => .error (.apiError d)
  | .exc d => .error (.otherException d)

/-- `OpenAIService._validate_api_key`, lines 37-56: `AuthenticationError` →
`ValueError("Invalid OpenAI API key")`; `RateLimitError` → pass (key treated as
valid); any other exception → `ValueError("OpenAI API key validation failed: {e}")`. -/
def validate_api_key (up : OpenAIOutcome) : Except PyExc Unit :=
  match validateBody up with
  | .ok () => .ok ()
  | .error (.authenticationError _) => .error (.valueError "Invalid OpenAI API key")
  | .error (.rateLimitError _) => .ok ()
  | .error e => .error (.valueError ("OpenAI API key validation failed: " ++ e.str))

/-- `OpenAIService.__init__`, lines 10-35, returning the requests issued to the
upstream together with the constructed service's model (its state) or the raised
exception.  The `try` wraps client creation and validation; any exception `e`
becomes `ValueError("Failed to initialize OpenAI client: {e}")`. -/
def openAIServiceInit (api_key model : String) (up : OpenAIOutcome) :
    List CompletionReq × Except PyExc String :=
  if api_key = "" then ([], .error (.valueError "OpenAI API key cannot be empty or None"))
  else
    ([validationReq model],
      match validate_api_key up with
      | .ok () => .ok model
      | .error e => .error (.valueError ("Failed to initialize OpenAI client: " ++ e.str)))

/-- Body of the `try` in `get_chat_completion`, lines 124-139: on a response,
a nonempty choice list yields the first choice's content stripped, an empty one
raises `RuntimeError("OpenAI API returned empty response")` (inside the `try`);
upstream exceptions propagate to the handlers. -/
def chatBody (up : OpenAIOutcome) : Except PyExc String :=
  match up with
  | .success (c :: _) => .ok (stripS c)
  | .success [] => .error (.runtimeError "OpenAI API returned empty response")
  | .authError d => .error (.authenticationError d)
  | .rateLimit d => .error (.rateLimitError d)
  | .apiErr d => .error (.apiError d)
  | .exc d => .error (.otherException d)

/-- The `except` chain of `get_chat_completion`, lines 141-148, in source order;
the final `except Exception` also catches the `RuntimeError` raised by the
zero-choices branch inside the `try`. -/
def chatHandler (e : PyExc) : PyExc :=
  match e with
  | .authenticationError _ => .runtimeError "OpenAI API authentication failed"
  | .rateLimitError _ => .runtimeError "OpenAI API rate limit exceeded - please try again later"
  | .apiError d => .runtimeError ("OpenAI API error: " ++ d)
  | e => .runtimeError ("Failed to get OpenAI response: " ++ e.str)

/-- `OpenAIService.get_chat_completion`, lines 100-148, returning the requests
issued upstream together with the result.  Guards: empty/whitespace-only message
and message empty after formatting raise `ValueError` before any request. -/
def get_chat_completion (model message : String) (up : OpenAIOutcome) :
    List CompletionReq × Except PyExc String :=
  if message = "" ∨ stripS message = "" then
    ([], .error (.valueError "Message cannot be empty or None"))
  else
    let formatted := format_slack_message message
    if stripS formatted = "" then
      ([], .error (.valueError "Message cannot be empty after formatting"))
    else
      ([{ model := model, messages := [("user", stripS formatted)], max_tokens := 1000,
          temperature := some ((7 : ℚ) / 10) }],
        match chatBody up with
        | .ok r => .ok r
        | .error e => .error (chatHandler e))

/-- Outcome of one call to the upstream Slack `auth_test`: a response with its
`ok` flag and optional identity fields, a `SlackApiError` with its error code,
or another exception. -/
inductive AuthOutcome
  | response (ok : Bool) (user_id team_id : Option String)
  | slackExc (code : String)
  | exc (detail : String)
  deriving DecidableEq, Repr

/-- State of a constructed `SlackService`. -/
structure SlackSt where
  bot_token : String
  bot_user_id : Option String
  team_id : Option String
  deriving DecidableEq, Repr

/-- Body of the `try` in `_validate_bot_token`, lines 40-49: an `ok` response
yields the identity fields; `ok` false raises `RuntimeError("Slack auth test
failed")` inside the `try`; upstream exceptions propagate. -/
def slackValidateBody (up : AuthOutcome) : Except PyExc (Option String × Option String) :=
  match up with
  | .response true uid tid => .ok (uid, tid)
  | .response false _ _ => .error (.runtimeError "Slack auth test failed")
  | .slackExc code => .error (.slackApiError (some code))
  | .exc d => .error (.otherException d)

/-- The `except` chain of `_validate_bot_token`, lines 51-59: `SlackApiError`
dispatches on `e.response["error"]`; the final `except Exception` also catches
the `RuntimeError` raised by the `ok`-false branch inside the `try`. -/
def slackValidateHandler (e : PyExc) : PyExc :=
  match e with
  | .slackApiError (some code) =>
    if code = "invalid_auth" then .runtimeError "Invalid Slack bot token"
    else if code = "account_inactive" then .runtimeError "Slack account is inactive"
    else .runtimeError ("Slack API error during validation: " ++ code)
  | .slackApiError none => .otherException "'error'"
  | e => .runtimeError ("Failed to validate Slack bot token: " ++ e.str)

/-- `SlackService._validate_bot_token`, lines 38-59. -/
def validate_bot_token (up : AuthOutcome) : Except PyExc (Option String × Option String) :=
  match slackValidateBody up with
  | .ok r => .ok r
  | .error e => .error (slackValidateHandler e)

/-- `SlackService.__init__`, lines 9-36, returning the number of `auth_test`
calls issued (as a list of units) together with the constructed state or the
raised exception.  The empty and bad-shape token checks run before the client is
created; the `try` wraps client creation and validation, turning any exception
into `RuntimeError("Failed to initialize Slack client: {e}")`. -/
def slackServiceInit (bot_token : String) (up : AuthOutcome) :
    List Unit × Except PyExc SlackSt :=
  if bot_token = "" then ([], .error (.valueError "Slack bot token cannot be empty or None"))
  else if ¬ ("xoxb-".data.isPrefixOf bot_token.data) then
    ([], .error (.valueError "Invalid Slack bot token format - must start with 'xoxb-'"))
  else
    ([()],
      match validate_bot_token up with
      | .ok (uid, tid) => .ok ⟨bot_token, uid, tid⟩
      | .error e => .error (.runtimeError ("Failed to initialize Slack client: " ++ e.str)))

/-- Outcome of one call to the upstream Slack `chat_postMessage`: a response
with its `ok` flag and optional error code, a `SlackApiError` with its optional
error code (`e.response.get("error", "unknown")`), or another exception. -/
inductive PostOutcome
  | response (ok : Bool) (error : Option String)
  | slackExc (error : Option String)
  | exc (detail : String)
  deriving DecidableEq, Repr

/-- Python truthiness gate on `thread_ts`, line 91: `if thread_ts:` adds the
field only when it is neither `None` nor the empty string. -/
def threadParam (thread_ts : Option String) : Option String :=
  match thread_ts with
  | some t => if t = "" then none else some t
  | none => none

/-- The keyword arguments assembled for `chat_postMessage`, lines 85-92:
trimmed channel and text, with `thread_ts` present only when truthy. -/
structure PostParams where
  channel : String
  text : String
  thread_ts : Option String
  deriving DecidableEq, Repr

/-- Body of the `try` in `post_message`, lines 84-101: an `ok` response returns
`True`; `ok` false raises `RuntimeError("Slack API returned error: ...")` with
default detail `"Unknown error"` (inside the `try`); upstream exceptions
propagate. -/
def postBody (up : PostOutcome) : Except PyExc Bool :=
  match up with
  | .response true _ => .ok true
  | .response false err =>
    .error (.runtimeError ("Slack API returned error: " ++ err.getD "Unknown error"))
  | .slackExc err => .error (.slackApiError err)
  | .exc d => .error (.otherException d)

/-- The `except` chain of `post_message`, lines 103-124: `SlackApiError`
dispatches on `e.response.get("error", "unknown")`; the final `except Exception`
also catches the `RuntimeError` raised by the `ok`-false branch inside the
`try`.  The not-found/archived messages interpolate the original (untrimmed)
`channel` argument. -/
def postHandler (channel : String) (e : PyExc) : PyExc :=
  match e with
  | .slackApiError err =>
    let error_code := err.getD "unknown"
    if error_code = "channel_not_found" then .runtimeError ("Channel not found: " ++ channel)
    else if error_code = "not_in_channel" then
      .runtimeError ("Bot is not in channel: " ++ channel)
    else if error_code = "is_archived" then .runtimeError ("Channel is archived: " ++ channel)
    else if error_code = "msg_too_long" then .runtimeError "Message text is too long"
    else if error_code = "rate_limited" then
      .runtimeError "Rate limit exceeded - please try again later"
    else if error_code = "invalid_auth" then .runtimeError "Invalid authentication token"
    else if error_code = "thread_not_found" then
      .runtimeError "Thread not found for the provided thread_ts"
    else .runtimeError ("Slack API error: " ++ error_code)
  | e => .runtimeError ("Failed to post message to Slack: " ++ e.str)

/-- `SlackService.post_message`, lines 61-124, returning the requests issued to
`chat_postMessage` together with the result.  Guards: empty/whitespace-only
channel or text raise `ValueError` before any request; `thread_ts` is included
only when truthy (Python `if thread_ts:` rejects both `None` and `""`). -/
def post_message (channel text : String) (thread_ts : Option String) (up : PostOutcome) :
    List PostParams × Except PyExc Bool :=
  if channel = "" ∨ stripS channel = "" then
    ([], .error (.valueError "Channel cannot be empty or None"))
  else if text = "" ∨ stripS text = "" then
    ([], .error (.valueError "Message text cannot be empty or None"))
  else
    let params : PostParams :=
      { channel := stripS channel, text := stripS text, thread_ts := threadParam thread_ts }
    ([params],
      match postBody up with
      | .ok b => .ok b
      | .error e => .error (postHandler channel e))

/-- No two adjacent whitespace characters: the relation whose `Chain'` closure
states that every whitespace run has length one. -/
def noTwoWs (a b : Char) : Prop := ¬(isPySpace a = true ∧ isPySpace b = true)

/-- Every whitespace character of the list is a plain space. -/
def allWsSpace (l : List Char) : Prop := ∀ c ∈ l, isPySpace c = true → c = ' '

/-- A character that can begin a match of any of the first eight patterns:
every mention/channel/link match starts with `<`, every emphasis match with its
marker. -/
def isTrigger (c : Char) : Bool :=
  c == '<' || c == '*' || c == '_' || c == backquote || c == '~'

theorem subScanF_congr (t : List Char → Option (Nat × List Char)) :
    ∀ f g l, l.length ≤ f → l.length ≤ g → subScanF t f l = subScanF t g l := by
  intro f
  induction f with
  | zero =>
    intro g l hf _
    have hl : l = [] := List.eq_nil_of_length_eq_zero (Nat.le_zero.mp hf)
    subst hl
    cases g <;> rfl
  | succ f ih =>
    intro g l hf hg
    cases l with
    | nil => cases g <;> rfl
    | cons c cs =>
      cases g with
      | zero => simp at hg
      | succ g =>
        simp only [subScanF]
        cases h : t (c :: cs) with
        | none =>
          have h1 : cs.length ≤ f := by simp at hf; omega
          have h2 : cs.length ≤ g := by simp at hg; omega
          simp only [ih g cs h1 h2]
        | some nr =>
          obtain ⟨n, rep⟩ := nr
          have hlen : (cs.drop (n - 1)).length ≤ cs.length := by
            simp [List.length_drop]
          have h1 : (cs.drop (n - 1)).length ≤ f := by simp at hf; omega
          have h2 : (cs.drop (n - 1)).length ≤ g := by simp at hg; omega
          simp only [ih g (cs.drop (n - 1)) h1 h2]

theorem subScan_cons_none (t : List Char → Option (Nat × List Char)) (c : Char) (cs : List Char)
    (h : t (c :: cs) = none) : subScan t (c :: cs) = c :: subScan t cs := by
  simp only [subScan, List.length_cons, subScanF, h]

theorem subScan_cons_some (t : List Char → Option (Nat × List Char)) (c : Char) (cs : List Char)
    (n : Nat) (rep : List Char) (h : t (c :: cs) = some (n, rep)) :
    subScan t (c :: cs) = rep ++ subScan t (cs.drop (n - 1)) := by
  simp only [subScan, List.length_cons, subScanF, h]
  congr 1
  exact subScanF_congr t cs.length (cs.drop (n - 1)).length (cs.drop (n - 1))
    (by simp [List.length_drop]) le_rfl

theorem subScan_eq_self (t : List Char → Option (Nat × List Char)) :
    ∀ l, (∀ c cs, (c :: cs) <:+ l → t (c :: cs) = none) → subScan t l = l := by
  intro l
  induction l with
  | nil => intro _; rfl
  | cons c cs ih =>
    intro h
    rw [subScan_cons_none t c cs (h c cs (List.suffix_refl _))]
    rw [ih (fun d ds hsuf => h d ds (hsuf.trans (List.suffix_cons c cs)))]

theorem subScan_nil (t : List Char → Option (Nat × List Char)) : subScan t [] = [] := rfl

attribute [irreducible] subScan

theorem matchTag_none_of_head (mark lead c : Char) (cs : List Char) (h : c ≠ '<') :
    matchTag mark lead (c :: cs) = none := by
  cases cs with
  | nil => rfl
  | cons b rest =>
    cases rest with
    | nil => rfl
    | cons d rest2 => simp [matchTag, h]

theorem matchLinkLabeled_none_of_head (c : Char) (cs : List Char) (h : c ≠ '<') :
    matchLinkLabeled (c :: cs) = none := by
  simp [matchLinkLabeled, h]

theorem matchLinkBare_none_of_head (c : Char) (cs : List Char) (h : c ≠ '<') :
    matchLinkBare (c :: cs) = none := by
  simp [matchLinkBare, h]

theorem matchEmph_none_of_head (m c : Char) (cs : List Char) (h : c ≠ m) :
    matchEmph m (c :: cs) = none := by
  simp [matchEmph, h]

theorem matchWs_none_of_head (c : Char) (cs : List Char) (h : isPySpace c = false) :
    matchWs (c :: cs) = none := by
  simp [matchWs, h]

theorem subScan_matchTag_id (mark lead : Char) (l : List Char) (h : '<' ∉ l) :
    subScan (matchTag mark lead) l = l :=
  subScan_eq_self _ l fun c cs hsuf =>
    matchTag_none_of_head mark lead c cs fun hc =>
      h (hc ▸ hsuf.subset (List.mem_cons_self c cs))

theorem subScan_matchLinkLabeled_id (l : List Char) (h : '<' ∉ l) :
    subScan matchLinkLabeled l = l :=
  subScan_eq_self _ l fun c cs hsuf =>
    matchLinkLabeled_none_of_head c cs fun hc =>
      h (hc ▸ hsuf.subset (List.mem_cons_self c cs))

theorem subScan_matchLinkBare_id (l : List Char) (h : '<' ∉ l) :
    subScan matchLinkBare l = l :=
  subScan_eq_self _ l fun c cs hsuf =>
    matchLinkBare_none_of_head c cs fun hc =>
      h (hc ▸ hsuf.subset (List.mem_cons_self c cs))

theorem subScan_matchEmph_id (m : Char) (l : List Char) (h : m ∉ l) :
    subScan (matchEmph m) l = l :=
  subScan_eq_self _ l fun c cs hsuf =>
    matchEmph_none_of_head m c cs fun hc =>
      h (hc ▸ hsuf.subset (List.mem_cons_self c cs))

theorem drop_length_takeWhile (p : Char → Bool) (l : List Char) :
    l.drop (l.takeWhile p).length = l.dropWhile p := by
  induction l with
  | nil => rfl
  | cons c cs ih =>
    by_cases h : p c <;> simp [List.takeWhile_cons, List.dropWhile_cons, h, ih]

theorem dropWhile_head_false (p : Char → Bool) :
    ∀ (l : List Char) c cs, l.dropWhile p = c :: cs → p c = false := by
  intro l
  induction l with
  | nil => intro c cs h; simp at h
  | cons a as ih =>
    intro c cs h
    by_cases ha : p a
    · rw [List.dropWhile_cons, if_pos ha] at h
      exact ih c cs h
    · rw [List.dropWhile_cons, if_neg ha] at h
      injection h with h1 _
      rw [← h1]
      simpa using ha

theorem dropWhile_suffix (p : Char → Bool) (l : List Char) : l.dropWhile p <:+ l := by
  induction l with
  | nil => exact List.suffix_refl _
  | cons a as ih =>
    rw [List.dropWhile_cons]
    by_cases h : p a
    · rw [if_pos h]
      exact ih.trans (List.suffix_cons a as)
    · rw [if_neg h]

theorem stripWS_append (l : List Char) :
    ∃ t, l.dropWhile isPySpace = stripWS l ++ t := by
  obtain ⟨t, ht⟩ := dropWhile_suffix isPySpace (l.dropWhile isPySpace).reverse
  refine ⟨t.reverse, ?_⟩
  have h2 := congrArg List.reverse ht
  simp only [List.reverse_append, List.reverse_reverse] at h2
  rw [stripWS]
  exact h2.symm

theorem stripWS_head_false (l : List Char) (c : Char) (cs : List Char)
    (h : stripWS l = c :: cs) : isPySpace c = false := by
  obtain ⟨t, ht⟩ := stripWS_append l
  rw [h] at ht
  exact dropWhile_head_false isPySpace l c (cs ++ t) (by simpa using ht)

theorem stripWS_last_false (l : List Char) (c : Char)
    (h : (stripWS l).getLast? = some c) : isPySpace c = false := by
  rw [stripWS, List.getLast?_reverse] at h
  cases hs : (l.dropWhile isPySpace).reverse.dropWhile isPySpace with
  | nil => rw [hs] at h; simp at h
  | cons d ds =>
    rw [hs] at h
    simp only [List.head?_cons, Option.some.injEq] at h
    rw [← h]
    exact dropWhile_head_false _ _ _ _ hs

theorem stripWS_eq_self (l : List Char)
    (h1 : ∀ c, l.head? = some c → isPySpace c = false)
    (h2 : ∀ c, l.getLast? = some c → isPySpace c = false) : stripWS l = l := by
  have hd : l.dropWhile isPySpace = l := by
    cases l with
    | nil => rfl
    | cons c cs =>
      rw [List.dropWhile_cons, if_neg]
      simp [h1 c rfl]
  rw [stripWS, hd]
  have hr : l.reverse.dropWhile isPySpace = l.reverse := by
    cases hrv : l.reverse with
    | nil => simp [hrv]
    | cons d ds =>
      rw [List.dropWhile_cons, if_neg]
      have : l.getLast? = some d := by
        rw [← List.head?_reverse, hrv, List.head?_cons]
      simp [h2 d this]
  rw [hr, List.reverse_reverse]

theorem mem_stripWS (l : List Char) (c : Char) (h : c ∈ stripWS l) : c ∈ l := by
  rw [stripWS] at h
  rw [List.mem_reverse] at h
  have h2 := (dropWhile_suffix isPySpace (l.dropWhile isPySpace).reverse).subset h
  rw [List.mem_reverse] at h2
  exact (dropWhile_suffix isPySpace l).subset h2

theorem chain'_stripWS (l : List Char) (h : List.Chain' noTwoWs l) :
    List.Chain' noTwoWs (stripWS l) := by
  have h1 : List.Chain' noTwoWs (l.dropWhile isPySpace) :=
    List.Chain'.suffix h (dropWhile_suffix _ _)
  have h2 : List.Chain' (flip noTwoWs) (l.dropWhile isPySpace).reverse := by
    rw [List.chain'_reverse]
    exact h1
  have h3 : List.Chain' (flip noTwoWs) ((l.dropWhile isPySpace).reverse.dropWhile isPySpace) :=
    List.Chain'.suffix h2 (dropWhile_suffix _ _)
  rw [stripWS, List.chain'_reverse]
  exact h3

theorem wsInvariant : ∀ n (l : List Char), l.length ≤ n →
    List.Chain' noTwoWs (subScan matchWs l) ∧ allWsSpace (subScan matchWs l) := by
  intro n
  induction n with
  | zero =>
    intro l hl
    have hnil : l = [] := List.eq_nil_of_length_eq_zero (Nat.le_zero.mp hl)
    subst hnil
    rw [subScan_nil]
    exact ⟨List.chain'_nil, by intro c hc; simp at hc⟩
  | succ n ih =>
    intro l hl
    cases l with
    | nil =>
      rw [subScan_nil]
      exact ⟨List.chain'_nil, by intro c hc; simp at hc⟩
    | cons c cs =>
      simp only [List.length_cons, Nat.add_le_add_iff_right] at hl
      by_cases hc : isPySpace c = true
      · have hm : matchWs (c :: cs) = some ((cs.takeWhile isPySpace).length + 1, [' ']) := by
          simp [matchWs, hc]
        rw [subScan_cons_some _ _ _ _ _ hm]
        have hdrop : cs.drop ((cs.takeWhile isPySpace).length + 1 - 1) = cs.dropWhile isPySpace := by
          simp [drop_length_takeWhile]
        rw [hdrop, List.singleton_append]
        have hlen : (cs.dropWhile isPySpace).length ≤ n :=
          le_trans (List.Sublist.length_le (dropWhile_suffix isPySpace _).sublist) hl
        obtain ⟨ihc, ihw⟩ := ih (cs.dropWhile isPySpace) hlen
        constructor
        · rw [List.chain'_cons']
          refine ⟨?_, ihc⟩
          intro y hy
          cases hcs : cs.dropWhile isPySpace with
          | nil => rw [hcs, subScan_nil] at hy; simp at hy
          | cons d ds =>
            have hd : isPySpace d = false := dropWhile_head_false _ _ _ _ hcs
            rw [hcs, subScan_cons_none _ _ _ (matchWs_none_of_head _ _ hd)] at hy
            simp only [List.head?_cons, Option.mem_def, Option.some.injEq] at hy
            rw [← hy]
            exact fun ⟨_, hws⟩ => by rw [hd] at hws; exact Bool.false_ne_true hws
        · intro x hx hxs
          rcases List.mem_cons.mp hx with rfl | hx'
          · rfl
          · exact ihw x hx' hxs
      · have hm := matchWs_none_of_head c cs (by simpa using hc)
        rw [subScan_cons_none _ _ _ hm]
        obtain ⟨ihc, ihw⟩ := ih cs hl
        constructor
        · rw [List.chain'_cons']
          exact ⟨fun y _ => fun ⟨h1, _⟩ => hc h1, ihc⟩
        · intro x hx hxs
          rcases List.mem_cons.mp hx with rfl | hx'
          · exact absurd hxs hc
          · exact ihw x hx' hxs

theorem subScan_ws_id : ∀ n (l : List Char), l.length ≤ n →
    List.Chain' noTwoWs l → allWsSpace l → subScan matchWs l = l := by
  intro n
  induction n with
  | zero =>
    intro l hl _ _
    have hnil : l = [] := List.eq_nil_of_length_eq_zero (Nat.le_zero.mp hl)
    subst hnil
    exact subScan_nil _
  | succ n ih =>
    intro l hl hchain hws
    cases l with
    | nil => exact subScan_nil _
    | cons c cs =>
      simp only [List.length_cons, Nat.add_le_add_iff_right] at hl
      by_cases hc : isPySpace c = true
      · have hceq : c = ' ' := hws c (List.mem_cons_self c cs) hc
        have htw : cs.takeWhile isPySpace = [] := by
          cases cs with
          | nil => rfl
          | cons d ds =>
            have hnd : noTwoWs c d := (List.chain'_cons.mp hchain).1
            have hd : isPySpace d = false := by
              by_contra hdx
              exact hnd ⟨hc, by simpa using hdx⟩
            rw [List.takeWhile_cons, hd]
            rfl
        have hm : matchWs (c :: cs) = some (0 + 1, [' ']) := by
          simp [matchWs, hc, htw]
        rw [subScan_cons_some _ _ _ _ _ hm]
        simp only [Nat.add_sub_cancel, List.drop_zero, List.singleton_append]
        rw [ih cs hl hchain.tail fun x hx hxs => hws x (List.mem_cons_of_mem c hx) hxs, hceq]
      · have hm := matchWs_none_of_head c cs (by simpa using hc)
        rw [subScan_cons_none _ _ _ hm]
        rw [ih cs hl hchain.tail fun x hx hxs => hws x (List.mem_cons_of_mem c hx) hxs]

theorem mem_subScan_ws : ∀ n (l : List Char), l.length ≤ n →
    ∀ c, c ∈ subScan matchWs l → c ∈ l ∨ c = ' ' := by
  intro n
  induction n with
  | zero =>
    intro l hl c hc
    have hnil : l = [] := List.eq_nil_of_length_eq_zero (Nat.le_zero.mp hl)
    subst hnil
    rw [subScan_nil] at hc
    simp at hc
  | succ n ih =>
    intro l hl c hc
    cases l with
    | nil => rw [subScan_nil] at hc; simp at hc
    | cons d ds =>
      simp only [List.length_cons, Nat.add_le_add_iff_right] at hl
      by_cases hd : isPySpace d = true
      · have hm : matchWs (d :: ds) = some ((ds.takeWhile isPySpace).length + 1, [' ']) := by
          simp [matchWs, hd]
        rw [subScan_cons_some _ _ _ _ _ hm] at hc
        have hdrop : ds.drop ((ds.takeWhile isPySpace).length + 1 - 1) = ds.dropWhile isPySpace := by
          simp [drop_length_takeWhile]
        rw [hdrop, List.singleton_append] at hc
        rcases List.mem_cons.mp hc with rfl | hc'
        · exact Or.inr rfl
        · rcases ih (ds.dropWhile isPySpace) (le_trans (List.Sublist.length_le (dropWhile_suffix isPySpace _).sublist) hl) c hc' with
            hin | hsp
          · exact Or.inl (List.mem_cons_of_mem d ((dropWhile_suffix isPySpace ds).subset hin))
          · exact Or.inr hsp
      · have hm := matchWs_none_of_head d ds (by simpa using hd)
        rw [subScan_cons_none _ _ _ hm] at hc
        rcases List.mem_cons.mp hc with rfl | hc'
        · exact Or.inl (List.mem_cons_self _ _)
        · rcases ih ds hl c hc' with hin | hsp
          · exact Or.inl (List.mem_cons_of_mem d hin)
          · exact Or.inr hsp

theorem wsClean_subScan (l : List Char) :
    List.Chain' noTwoWs (subScan matchWs l) ∧ allWsSpace (subScan matchWs l) :=
  wsInvariant l.length l le_rfl

theorem subScan_ws_fix (l : List Char) (h1 : List.Chain' noTwoWs l) (h2 : allWsSpace l) :
    subScan matchWs l = l :=
  subScan_ws_id l.length l le_rfl h1 h2

theorem mem_subScan_ws_or (l : List Char) (c : Char) (h : c ∈ subScan matchWs l) :
    c ∈ l ∨ c = ' ' :=
  mem_subScan_ws l.length l le_rfl c h

theorem formatCore_eq_of_no_trigger (l : List Char) (h : ∀ c ∈ l, isTrigger c = false) :
    formatCore l = stripWS (subScan matchWs l) := by
  have hno : ∀ c : Char, isTrigger c = true → c ∉ l := by
    intro c hc hm
    rw [h c hm] at hc
    exact Bool.false_ne_true hc
  unfold formatCore preWs
  rw [subScan_matchTag_id '@' 'U' l (hno '<' (by with_unfolding_all decide)),
    subScan_matchTag_id '#' 'C' l (hno '<' (by with_unfolding_all decide)),
    subScan_matchLinkLabeled_id l (hno '<' (by with_unfolding_all decide)),
    subScan_matchLinkBare_id l (hno '<' (by with_unfolding_all decide)),
    subScan_matchEmph_id '*' l (hno '*' (by with_unfolding_all decide)),
    subScan_matchEmph_id '_' l (hno '_' (by with_unfolding_all decide)),
    subScan_matchEmph_id backquote l (hno backquote (by with_unfolding_all decide)),
    subScan_matchEmph_id '~' l (hno '~' (by with_unfolding_all decide))]

theorem formatCore_chain (l : List Char) : List.Chain' noTwoWs (formatCore l) :=
  chain'_stripWS (subScan matchWs (preWs l)) (wsClean_subScan (preWs l)).1

theorem formatCore_allWsSpace (l : List Char) : allWsSpace (formatCore l) := fun c hc hcs =>
  (wsClean_subScan (preWs l)).2 c (mem_stripWS (subScan matchWs (preWs l)) c hc) hcs

theorem formatCore_head_false (l : List Char) (c : Char) (cs : List Char)
    (h : formatCore l = c :: cs) : isPySpace c = false :=
  stripWS_head_false _ c cs h

theorem formatCore_last_false (l : List Char) (c : Char)
    (h : (formatCore l).getLast? = some c) : isPySpace c = false :=
  stripWS_last_false _ c h

theorem str_ext (a b : String) (h : a.data = b.data) : a = b := by
  cases a
  cases b
  exact congrArg String.mk h

theorem str_data_append (p m : String) : (p ++ m).data = p.data ++ m.data := by
  cases p
  cases m
  rfl

theorem str_append_assoc (a b c : String) : a ++ (b ++ c) = (a ++ b) ++ c := by
  apply str_ext
  simp [str_data_append]

theorem head_append (l1 l2 : List Char) (c : Char) (h : l1.head? = some c) :
    (l1 ++ l2).head? = some c := by
  cases l1 with
  | nil => simp at h
  | cons a as => simpa using h

theorem append_ne_of_head (p m q : String) (h : (p.data ++ m.data).head? ≠ q.data.head?) :
    p ++ m ≠ q := fun he => h (by rw [← str_data_append, he])

theorem append_ne_append_of_head (p a b : String) (h : a.data.head? ≠ b.data.head?) :
    p ++ a ≠ p ++ b := by
  intro he
  have h2 := congrArg String.data he
  rw [str_data_append, str_data_append] at h2
  exact h (by rw [List.append_cancel_left h2])

/-- C1: the claim `normalize(normalize(s)) = normalize(s)` for all `s` is false:
on `"<<@U1>@U2>"` the first pass removes `<@U1>` and thereby splices the
remaining characters into a fresh mention token `<@U2>`, which only the second
pass removes. -/
theorem normalize_not_idempotent :
    format_slack_message (format_slack_message "<<@U1>@U2>") ≠
      format_slack_message "<<@U1>@U2>" := by with_unfolding_all decide

/-- C1 (amended): the normalizer is idempotent on every input containing none of
the markup trigger characters `<`, `*`, `_`, backquote, `~`; removals can
otherwise splice together a new markup token for a later pass, so idempotence
does not hold unconditionally. -/
theorem normalize_idempotent_of_no_marker (s : String)
    (h : ∀ c ∈ s.data, isTrigger c = false) :
    format_slack_message (format_slack_message s) = format_slack_message s := by
  by_cases hs : s = ""
  · subst hs
    rfl
  · have h1 : format_slack_message s = String.mk (formatCore s.data) := by
      rw [format_slack_message, if_neg hs]
    have hr2 : formatCore s.data = stripWS (subScan matchWs s.data) :=
      formatCore_eq_of_no_trigger s.data h
    have hrt : ∀ c ∈ formatCore s.data, isTrigger c = false := by
      intro c hc
      rw [hr2] at hc
      rcases mem_subScan_ws_or _ c (mem_stripWS _ c hc) with hin | hsp
      · exact h c hin
      · rw [hsp]
        with_unfolding_all decide
    by_cases hrnil : formatCore s.data = []
    · rw [h1, hrnil]
      with_unfolding_all decide
    · have hmkne : String.mk (formatCore s.data) ≠ "" := by
        intro hh
        exact hrnil (congrArg String.data hh)
      rw [h1, format_slack_message, if_neg hmkne]
      have hgoal : formatCore (formatCore s.data) = formatCore s.data := by
        rw [formatCore_eq_of_no_trigger _ hrt]
        have hchain : List.Chain' noTwoWs (formatCore s.data) := formatCore_chain s.data
        have hws : allWsSpace (formatCore s.data) := formatCore_allWsSpace s.data
        rw [subScan_ws_fix _ hchain hws]
        apply stripWS_eq_self
        · intro c hc
          cases hfc : formatCore s.data with
          | nil => rw [hfc] at hc; simp at hc
          | cons d ds =>
            rw [hfc] at hc
            simp only [List.head?_cons, Option.some.injEq] at hc
            rw [← hc]
            exact formatCore_head_false s.data d ds hfc
        · intro c hc
          exact formatCore_last_false s.data c hc
      exact congrArg String.mk hgoal

/-- C1 (witness): the amended idempotence theorem applied to a concrete
marker-free input. -/
theorem normalize_idempotent_witness :
    format_slack_message (format_slack_message "a  b c") = format_slack_message "a  b c" :=
  normalize_idempotent_of_no_marker "a  b c" (by with_unfolding_all decide)

/-- C4: the three specified evaluations of the substitution chain (mentions
removed, labeled links replaced by their label, bare links unwrapped, emphasis
markers removed, whitespace collapsed), in the fixed source order. -/
theorem normalize_examples :
    format_slack_message "Hi <@U1|bob> and <@U2>" = "Hi and" ∧
    format_slack_message "<https://x|Click> or <https://y>" = "Click or https://y" ∧
    format_slack_message "*b* _i_ `c` ~s~" = "b i c s" := by with_unfolding_all decide

/-- C7: the normalizer is total (a function), returns the empty string on empty
input, and every output has no leading whitespace, no trailing whitespace, no
two consecutive whitespace characters, and only plain spaces as whitespace
(every whitespace run collapses to a single space). -/
theorem normalize_total_collapsed :
    format_slack_message "" = "" ∧
    ∀ s : String,
      List.Chain' noTwoWs (format_slack_message s).data ∧
      allWsSpace (format_slack_message s).data ∧
      (format_slack_message s).data.head?.all (fun c => !isPySpace c) = true ∧
      (format_slack_message s).data.getLast?.all (fun c => !isPySpace c) = true := by
  refine ⟨rfl, fun s => ?_⟩
  by_cases hs : s = ""
  · subst hs
    refine ⟨List.chain'_nil, ?_, rfl, rfl⟩
    intro c hc _
    rw [show (format_slack_message "").data = [] from rfl] at hc
    simp at hc
  · have h1 : (format_slack_message s).data = formatCore s.data := by
      rw [format_slack_message, if_neg hs]
    rw [h1]
    refine ⟨formatCore_chain s.data, formatCore_allWsSpace s.data, ?_, ?_⟩
    · cases hfc : formatCore s.data with
      | nil => rfl
      | cons d ds =>
        simp only [List.head?_cons, Option.all_some]
        rw [formatCore_head_false s.data d ds hfc]
        rfl
    · cases hlc : (formatCore s.data).getLast? with
      | none => rfl
      | some d =>
        simp only [Option.all_some]
        rw [formatCore_last_false s.data d hlc]
        rfl

/-- C10: the mention pattern only strips tokens whose ID is a nonempty
`[A-Z0-9]` run beginning with the literal `U`, the channel pattern likewise with
`C`; tokens of any other shape are left untouched by those steps and — when no
other pattern applies — survive normalization verbatim. -/
theorem tag_id_shape_required :
    (∀ (c : Char) (rest : List Char), c ≠ 'U' →
      matchTag '@' 'U' ('<' :: '@' :: c :: rest) = none) ∧
    (∀ (c : Char) (rest : List Char), isUpperDigit c = false →
      matchTag '@' 'U' ('<' :: '@' :: 'U' :: c :: rest) = none) ∧
    (∀ (c : Char) (rest : List Char), c ≠ 'C' →
      matchTag '#' 'C' ('<' :: '#' :: c :: rest) = none) ∧
    (∀ (c : Char) (rest : List Char), isUpperDigit c = false →
      matchTag '#' 'C' ('<' :: '#' :: 'C' :: c :: rest) = none) ∧
    format_slack_message "<@W123> hi" = "<@W123> hi" ∧
    format_slack_message "hey <@u123>" = "hey <@u123>" ∧
    format_slack_message "<#D42|general> x" = "<#D42|general> x" := by
  refine ⟨?_, ?_, ?_, ?_, by with_unfolding_all decide, by with_unfolding_all decide, by with_unfolding_all decide⟩
  · intro c rest h
    simp [matchTag, h]
  · intro c rest h
    simp [matchTag, List.takeWhile_cons, h]
  · intro c rest h
    simp [matchTag, h]
  · intro c rest h
    simp [matchTag, List.takeWhile_cons, h]

/-- C10 (witness): the shape lemmas applied at concrete non-conforming IDs. -/
theorem tag_id_shape_required_witness :
    matchTag '@' 'U' ('<' :: '@' :: 'W' :: ['1', '2', '3', '>']) = none ∧
    matchTag '@' 'U' ('<' :: '@' :: 'U' :: ['a', 'b', '>']) = none ∧
    matchTag '#' 'C' ('<' :: '#' :: 'D' :: ['4', '2', '>']) = none ∧
    matchTag '#' 'C' ('<' :: '#' :: 'C' :: ['x', '>']) = none :=
  ⟨tag_id_shape_required.1 'W' ['1', '2', '3', '>'] (by with_unfolding_all decide),
   tag_id_shape_required.2.1 'a' ['b', '>'] (by with_unfolding_all decide),
   tag_id_shape_required.2.2.1 'D' ['4', '2', '>'] (by with_unfolding_all decide),
   tag_id_shape_required.2.2.2.1 'x' ['>'] (by with_unfolding_all decide)⟩


theorem chatHandler_not_valueError (e : PyExc) : (chatHandler e).isValueError = false := by
  cases e <;> rfl

theorem postHandler_not_valueError (channel : String) (e : PyExc) :
    (postHandler channel e).isValueError = false := by
  cases e <;> simp only [postHandler] <;> try rfl
  split_ifs <;> rfl

theorem head_of_data_append (p m : String) (c : Char) (hp : p.data.head? = some c) :
    (p ++ m).data.head? = some c := by
  rw [str_data_append]
  exact head_append p.data m.data c hp

/-- C2 (counterexample): on a zero-choices upstream reply, `get_chat_completion`
does not fail with the bare distinct empty-response error; the `RuntimeError`
raised inside the `try` is caught by the service's own `except Exception` and
re-wrapped, so the raised error has the generic unknown-failure shape and is
identical to a generic unknown failure carrying the same detail. -/
theorem empty_choices_error_is_generic_kind :
    (get_chat_completion "gpt-4" "hello" (.success [])).2 =
      .error (.runtimeError "Failed to get OpenAI response: OpenAI API returned empty response") ∧
    (get_chat_completion "gpt-4" "hello" (.success [])).2 =
      (get_chat_completion "gpt-4" "hello" (.exc "OpenAI API returned empty response")).2 ∧
    (get_chat_completion "gpt-4" "hello" (.success [])).2 ≠
      .error (.runtimeError "OpenAI API returned empty response") := by
  refine ⟨?_, ?_, ?_⟩ <;> with_unfolding_all decide

/-- C2 (amended): for every valid message, a zero-choices upstream reply makes
`get_chat_completion` fail with `RuntimeError` whose message is the distinct
empty-response detail wrapped by the generic handler: `"Failed to get OpenAI
response: OpenAI API returned empty response"`. -/
theorem empty_choices_error_message (model message : String)
    (h1 : ¬(message = "" ∨ stripS message = ""))
    (h2 : ¬stripS (format_slack_message message) = "") :
    (get_chat_completion model message (.success [])).2 =
      .error (.runtimeError "Failed to get OpenAI response: OpenAI API returned empty response") := by
  simp only [get_chat_completion, if_neg h1, if_neg h2, chatBody, chatHandler, PyExc.str]
  with_unfolding_all decide

/-- C2 (witness): the amended theorem at a concrete valid message. -/
theorem empty_choices_error_message_witness :
    (get_chat_completion "gpt-4" "hello" (.success [])).2 =
      .error (.runtimeError "Failed to get OpenAI response: OpenAI API returned empty response") :=
  empty_choices_error_message "gpt-4" "hello" (by with_unfolding_all decide)
    (by with_unfolding_all decide)

/-- C3: with a nonempty credential, the one live validation call maps outcomes:
authentication failure → construction fails with the distinct invalid-credential
error; rate-limit failure → construction succeeds; any other failure →
construction fails with the initialization-failure error carrying the upstream
detail, and for every detail that error differs from the invalid-credential
one. -/
theorem init_validation_outcome_mapping (api_key model : String) (h : api_key ≠ "") :
    (∀ d, (openAIServiceInit api_key model (.authError d)).2 =
      .error (.valueError "Failed to initialize OpenAI client: Invalid OpenAI API key")) ∧
    (∀ d, (openAIServiceInit api_key model (.rateLimit d)).2 = .ok model) ∧
    (∀ d, (openAIServiceInit api_key model (.apiErr d)).2 =
      .error (.valueError
        ("Failed to initialize OpenAI client: OpenAI API key validation failed: " ++ d))) ∧
    (∀ d, (openAIServiceInit api_key model (.exc d)).2 =
      .error (.valueError
        ("Failed to initialize OpenAI client: OpenAI API key validation failed: " ++ d))) ∧
    (∀ d, (PyExc.valueError "Failed to initialize OpenAI client: Invalid OpenAI API key") ≠
      .valueError ("Failed to initialize OpenAI client: OpenAI API key validation failed: " ++ d)) := by
  have hcat : ("Failed to initialize OpenAI client: " : String) ++
      "OpenAI API key validation failed: " =
      "Failed to initialize OpenAI client: OpenAI API key validation failed: " := by
    with_unfolding_all decide
  have hflat : ∀ d : String,
      ("Failed to initialize OpenAI client: " : String) ++
        ("OpenAI API key validation failed: " ++ d) =
      ("Failed to initialize OpenAI client: OpenAI API key validation failed: " : String) ++ d := by
    intro d
    rw [str_append_assoc, hcat]
  refine ⟨?_, ?_, ?_, ?_, ?_⟩
  · intro d
    simp only [openAIServiceInit, if_neg h, validate_api_key, validateBody, PyExc.str]
    with_unfolding_all decide
  · intro d
    simp only [openAIServiceInit, if_neg h, validate_api_key, validateBody]
  · intro d
    simp only [openAIServiceInit, if_neg h, validate_api_key, validateBody, PyExc.str, hflat d]
  · intro d
    simp only [openAIServiceInit, if_neg h, validate_api_key, validateBody, PyExc.str, hflat d]
  · intro d he
    simp only [PyExc.valueError.injEq] at he
    have e1 : ("Failed to initialize OpenAI client: Invalid OpenAI API key" : String) =
        "Failed to initialize OpenAI client: " ++ "Invalid OpenAI API key" := by
      with_unfolding_all decide
    rw [e1, ← hflat d] at he
    refine append_ne_append_of_head "Failed to initialize OpenAI client: "
      "Invalid OpenAI API key" ("OpenAI API key validation failed: " ++ d) ?_ he
    rw [head_of_data_append "OpenAI API key validation failed: " d 'O' (by with_unfolding_all decide)]
    with_unfolding_all decide

/-- C3 (witness): the mapping theorem at a concrete nonempty credential. -/
theorem init_validation_outcome_mapping_witness :
    (openAIServiceInit "sk-x" "gpt-4" (.rateLimit "busy")).2 = .ok "gpt-4" :=
  (init_validation_outcome_mapping "sk-x" "gpt-4" (by with_unfolding_all decide)).2.1 "busy"

/-- C5 (counterexample): when the upstream reply has `ok` false and no error
code, the raised error defaults to the literal `"Unknown error"`, not
`"unknown"` (which is the default of the separate `SlackApiError` handler), and
the raise inside the `try` is re-wrapped by the service's `except Exception`. -/
theorem ok_false_default_not_unknown :
    (post_message "chan" "text" none (.response false none)).2 =
      .error (.runtimeError
        "Failed to post message to Slack: Slack API returned error: Unknown error") ∧
    ¬("unknown".data <:+:
      ("Failed to post message to Slack: Slack API returned error: Unknown error").data) ∧
    (post_message "chan" "text" none (.response false none)).2 ≠
      .error (.runtimeError "Slack API returned error: unknown") := by
  refine ⟨?_, ?_, ?_⟩ <;> with_unfolding_all decide

/-- C5 (amended): for nonempty destination and text, an `ok`-false reply makes
`post_message` fail with `RuntimeError` carrying the upstream error code behind
the wrapped message `"Failed to post message to Slack: Slack API returned
error: <code>"`, the code defaulting to the literal `"Unknown error"` when the
reply has none. -/
theorem ok_false_error_message (channel text : String) (thread_ts : Option String)
    (h1 : ¬(channel = "" ∨ stripS channel = ""))
    (h2 : ¬(text = "" ∨ stripS text = "")) :
    (∀ code, (post_message channel text thread_ts (.response false (some code))).2 =
      .error (.runtimeError
        ("Failed to post message to Slack: Slack API returned error: " ++ code))) ∧
    (post_message channel text thread_ts (.response false none)).2 =
      .error (.runtimeError
        "Failed to post message to Slack: Slack API returned error: Unknown error") := by
  have hcat : ("Failed to post message to Slack: " : String) ++ "Slack API returned error: " =
      "Failed to post message to Slack: Slack API returned error: " := by
    with_unfolding_all decide
  have hflat : ∀ code : String,
      ("Failed to post message to Slack: " : String) ++ ("Slack API returned error: " ++ code) =
      ("Failed to post message to Slack: Slack API returned error: " : String) ++ code := by
    intro code
    rw [str_append_assoc, hcat]
  constructor
  · intro code
    simp only [post_message, if_neg h1, if_neg h2, postBody, postHandler, PyExc.str,
      Option.getD_some, hflat code]
  · simp only [post_message, if_neg h1, if_neg h2, postBody, postHandler, PyExc.str,
      Option.getD_none]
    with_unfolding_all decide

/-- C5 (witness): the amended theorem at concrete arguments. -/
theorem ok_false_error_message_witness :
    (post_message "chan" "text" none (.response false (some "is_archived"))).2 =
      .error (.runtimeError
        ("Failed to post message to Slack: Slack API returned error: " ++ "is_archived")) :=
  (ok_false_error_message "chan" "text" none (by with_unfolding_all decide)
    (by with_unfolding_all decide)).1 "is_archived"

/-- C6: each `ValueError`-class (invalid-argument) failure is raised before any
network request: whenever a construction or call fails with the empty-credential
`ValueError`, or with any `ValueError` at all for `get_chat_completion`,
`SlackService` construction, or `post_message`, the list of requests issued
upstream is empty. -/
theorem invalid_argument_no_network :
    (∀ api_key model up,
      (openAIServiceInit api_key model up).2 =
        .error (.valueError "OpenAI API key cannot be empty or None") →
      (openAIServiceInit api_key model up).1 = []) ∧
    (∀ model message up e, (get_chat_completion model message up).2 = .error e →
      e.isValueError = true → (get_chat_completion model message up).1 = []) ∧
    (∀ bot_token up e, (slackServiceInit bot_token up).2 = .error e →
      e.isValueError = true → (slackServiceInit bot_token up).1 = []) ∧
    (∀ channel text thread_ts up e,
      (post_message channel text thread_ts up).2 = .error e →
      e.isValueError = true → (post_message channel text thread_ts up).1 = []) := by
  refine ⟨?_, ?_, ?_, ?_⟩
  · intro api_key model up h
    by_cases hk : api_key = ""
    · simp [openAIServiceInit, hk]
    · exfalso
      simp only [openAIServiceInit, if_neg hk] at h
      cases hv : validate_api_key up with
      | ok u => rw [hv] at h; simp at h
      | error e =>
        rw [hv] at h
        simp only [Except.error.injEq, PyExc.valueError.injEq] at h
        refine append_ne_of_head "Failed to initialize OpenAI client: " e.str
          "OpenAI API key cannot be empty or None" ?_ h
        rw [head_append "Failed to initialize OpenAI client: ".data e.str.data 'F'
          (by with_unfolding_all decide)]
        with_unfolding_all decide
  · intro model message up e h hv
    by_cases g1 : message = "" ∨ stripS message = ""
    · simp [get_chat_completion, g1]
    · by_cases g2 : stripS (format_slack_message message) = ""
      · simp [get_chat_completion, g1, g2]
      · exfalso
        simp only [get_chat_completion, if_neg g1, if_neg g2] at h
        cases hb : chatBody up with
        | ok u => rw [hb] at h; simp at h
        | error e0 =>
          rw [hb] at h
          simp only [Except.error.injEq] at h
          rw [← h, chatHandler_not_valueError e0] at hv
          exact Bool.false_ne_true hv
  · intro bot_token up e h hv
    by_cases hk : bot_token = ""
    · simp [slackServiceInit, hk]
    · by_cases hp : ("xoxb-".data.isPrefixOf bot_token.data : Prop)
      · exfalso
        simp only [slackServiceInit, if_neg hk, if_neg (not_not_intro hp)] at h
        cases hb : validate_bot_token up with
        | ok u => rw [hb] at h; cases u; simp at h
        | error e0 =>
          rw [hb] at h
          simp only [Except.error.injEq] at h
          rw [← h] at hv
          exact Bool.false_ne_true hv
      · simp [slackServiceInit, hk, hp]
  · intro channel text thread_ts up e h hv
    by_cases g1 : channel = "" ∨ stripS channel = ""
    · simp [post_message, g1]
    · by_cases g2 : text = "" ∨ stripS text = ""
      · simp [post_message, g1, g2]
      · exfalso
        simp only [post_message, if_neg g1, if_neg g2] at h
        cases hb : postBody up with
        | ok u => rw [hb] at h; simp at h
        | error e0 =>
          rw [hb] at h
          simp only [Except.error.injEq] at h
          rw [← h, postHandler_not_valueError channel e0] at hv
          exact Bool.false_ne_true hv

/-- C6 (witness): the no-network theorem at concrete invalid-argument calls. -/
theorem invalid_argument_no_network_witness :
    (openAIServiceInit "" "gpt-4" (.success ["x"])).1 = [] ∧
    (get_chat_completion "gpt-4" "   " (.success ["x"])).1 = [] ∧
    (slackServiceInit "bad-token" (.response true none none)).1 = [] ∧
    (post_message "" "hi" none (.response true none)).1 = [] :=
  ⟨invalid_argument_no_network.1 "" "gpt-4" (.success ["x"]) (by with_unfolding_all decide),
   invalid_argument_no_network.2.1 "gpt-4" "   " (.success ["x"])
     (.valueError "Message cannot be empty or None") (by with_unfolding_all decide) rfl,
   invalid_argument_no_network.2.2.1 "bad-token" (.response true none none)
     (.valueError "Invalid Slack bot token format - must start with 'xoxb-'")
     (by with_unfolding_all decide) rfl,
   invalid_argument_no_network.2.2.2 "" "hi" none (.response true none)
     (.valueError "Channel cannot be empty or None") (by with_unfolding_all decide) rfl⟩

/-- C8: for destination and text nonempty after trimming, on an `ok`-true reply
`post_message` returns `True`, the single outbound request carries the trimmed
destination and text, and the thread field appears in the request only when a
(truthy) thread reference was passed. -/
theorem post_success_payload (channel text : String) (thread_ts : Option String)
    (h1 : ¬(channel = "" ∨ stripS channel = ""))
    (h2 : ¬(text = "" ∨ stripS text = "")) :
    (∀ err, post_message channel text thread_ts (.response true err) =
      ([{ channel := stripS channel, text := stripS text,
          thread_ts := threadParam thread_ts }], .ok true)) ∧
    ((threadParam thread_ts).isSome = true → thread_ts.isSome = true) := by
  constructor
  · intro err
    simp only [post_message, if_neg h1, if_neg h2, postBody]
  · intro _
    cases thread_ts with
    | none => simp [threadParam] at *
    | some t => rfl

/-- C8 (witness): the success-payload theorem at concrete arguments. -/
theorem post_success_payload_witness :
    post_message " C1 " " hello " none (.response true none) =
      ([{ channel := stripS " C1 ", text := stripS " hello ",
          thread_ts := threadParam none }], .ok true) :=
  (post_success_payload " C1 " " hello " none (by with_unfolding_all decide)
    (by with_unfolding_all decide)).1 none

/-- C9: for every valid message, `get_chat_completion` issues exactly one
request, whose payload is the normalized text as the sole user turn with
`max_tokens` 1000, temperature 0.7 and the configured model; on an upstream
reply with at least one choice it returns the first choice trimmed. -/
theorem complete_request_shape (model message : String) (up : OpenAIOutcome)
    (h1 : ¬(message = "" ∨ stripS message = ""))
    (h2 : ¬stripS (format_slack_message message) = "") :
    (get_chat_completion model message up).1 =
      [{ model := model,
         messages := [("user", stripS (format_slack_message message))],
         max_tokens := 1000, temperature := some ((7 : ℚ) / 10) }] ∧
    ∀ c rest, up = .success (c :: rest) →
      (get_chat_completion model message up).2 = .ok (stripS c) := by
  constructor
  · simp only [get_chat_completion, if_neg h1, if_neg h2]
  · intro c rest hup
    subst hup
    simp only [get_chat_completion, if_neg h1, if_neg h2, chatBody]

/-- C9 (witness): the request-shape theorem at a concrete valid message. -/
theorem complete_request_shape_witness :
    (get_chat_completion "gpt-4" "hello" (.success ["  hi  "])).1 =
      [{ model := "gpt-4",
         messages := [("user", stripS (format_slack_message "hello"))],
         max_tokens := 1000, temperature := some ((7 : ℚ) / 10) }] ∧
    (get_chat_completion "gpt-4" "hello" (.success ["  hi  "])).2 = .ok (stripS "  hi  ") :=
  ⟨(complete_request_shape "gpt-4" "hello" (.success ["  hi  "])
      (by with_unfolding_all decide) (by with_unfolding_all decide)).1,
   (complete_request_shape "gpt-4" "hello" (.success ["  hi  "])
      (by with_unfolding_all decide) (by with_unfolding_all decide)).2 "  hi  " [] rfl⟩

example : format_slack_message "Hi <@U1|bob> and <@U2>" = "Hi and" := by with_unfolding_all decide
example : format_slack_message "<https://x|Click> or <https://y>" = "Click or https://y" := by with_unfolding_all decide
example : format_slack_message "*b* _i_ `c` ~s~" = "b i c s" := by with_unfolding_all decide
example : format_slack_message "<#C1|general> check" = "check" := by with_unfolding_all decide
example : format_slack_message "<<@U1>@U2>" = "<@U2>" := by with_unfolding_all decide
example : format_slack_message "<@U2>" = "" := by with_unfolding_all decide
example : format_slack_message "  Hello   world  " = "Hello world" := by with_unfolding_all decide
example : format_slack_message "<@W123>" = "<@W123>" := by with_unfolding_all decide

end Slackbot
